import Mathlib

/-!
Verification development for the Ouagadougou flood-prediction backend.

The definitions below are a shallow embedding of the Python sources:
  - app.py            (flood risk classifier inside predict_flood)
  - ontology_explorer.py (SWRL rule catalog, statistics, visualization builder)
  - inference_explainer.py (inference explanation over the rule catalog)

Numeric values that are Python floats in the source are modelled as exact
rationals: the programs only compare, add and divide by constants, and the
properties proved here concern branch structure, not rounding.
-/

/-! ## Risk classifier (app.py, predict_flood, lines 735-770)

The classifier works on the two optional measurements extracted from the
current readings: precipitation (mm) and discharge (cubic meters per second).
The derived water level is discharge / 20 (app.py line 715).
Risk levels carry the French names used by the source strings
("Faible" = Low, "Modéré" = Moderate, "Élevé" = High). -/

inductive RiskLevel where
  | Faible : RiskLevel
  | Modere : RiskLevel
  | Eleve : RiskLevel
deriving DecidableEq, Repr

inductive AlertStatus where
  | Normal : AlertStatus
  | Alerte : AlertStatus
deriving DecidableEq, Repr

/-- One entry of the risk_reasons list.  Each constructor corresponds to one
of the distinct f-string templates appended by predict_flood, carrying the
numeric values interpolated into the string:
  - highPrecipAndWater p wl : "Précipitations élevées (p mm) et niveau ..." (line 742)
  - highDischarge d : "Débit élevé à la station de Wayen (d m³/s)" (line 748)
  - veryHighDischarge d : "Débit très élevé du Nakanbé à Wayen (d m³/s)" (line 756)
  - moderatePrecip p : "Précipitations modérées (p mm)" (line 763)
  - veryHighPrecip p : "Précipitations très élevées (p mm)" (line 766)
  - stableConditions : "Conditions météorologiques et hydrologiques stables" (line 770) -/
inductive Reason where
  | highPrecipAndWater : ℚ → ℚ → Reason
  | highDischarge : ℚ → Reason
  | veryHighDischarge : ℚ → Reason
  | moderatePrecip : ℚ → Reason
  | veryHighPrecip : ℚ → Reason
  | stableConditions : Reason
deriving DecidableEq, Repr

/-- The mutable locals of the classification cascade: risk_level,
alert_status and risk_reasons.  alert_status is initialized at line 751 in
the source, between the discharge rules; nothing reads or writes it before
that line, so initializing it at the start is equivalent. -/
structure ClassifierState where
  risk_level : RiskLevel
  alert_status : AlertStatus
  risk_reasons : List Reason
deriving DecidableEq, Repr

def initialClassifierState : ClassifierState :=
  { risk_level := RiskLevel.Faible, alert_status := AlertStatus.Normal, risk_reasons := [] }

/-- app.py line 715: water_level = discharge / 20 when discharge is present. -/
def water_level_of (discharge : Option ℚ) : Option ℚ :=
  match discharge with
  | some d => some (d / 20)
  | none => none

/-- app.py lines 739-742 (Règle 1): precipitation over 30 together with water
level over 2.5 sets the level to Élevé and appends a reason. -/
def regle1 (precipitation water_level : Option ℚ) (st : ClassifierState) : ClassifierState :=
  match precipitation, water_level with
  | some p, some wl =>
      if 30 < p ∧ (5 : ℚ) / 2 < wl then
        { st with risk_level := RiskLevel.Eleve,
                  risk_reasons := st.risk_reasons ++ [Reason.highPrecipAndWater p wl] }
      else st
  | _, _ => st

/-- app.py lines 745-748 (Règle 4 in the source comments): discharge over 10
raises the level to Modéré unless it is already Élevé, and appends a reason. -/
def regle4 (discharge : Option ℚ) (st : ClassifierState) : ClassifierState :=
  match discharge with
  | some d =>
      if 10 < d then
        { st with
            risk_level := if st.risk_level = RiskLevel.Eleve then st.risk_level else RiskLevel.Modere,
            risk_reasons := st.risk_reasons ++ [Reason.highDischarge d] }
      else st
  | none => st

/-- app.py lines 751-756 (Règle 5 in the source comments): discharge over 50
sets the alert status to Alerte, raises the level to Modéré unless already
Élevé, and appends a reason. -/
def regle5 (discharge : Option ℚ) (st : ClassifierState) : ClassifierState :=
  match discharge with
  | some d =>
      if 50 < d then
        { st with
            alert_status := AlertStatus.Alerte,
            risk_level := if st.risk_level = RiskLevel.Eleve then st.risk_level else RiskLevel.Modere,
            risk_reasons := st.risk_reasons ++ [Reason.veryHighDischarge d] }
      else st
  | none => st

/-- app.py lines 759-766 (the extra precipitation rule): precipitation in
(15, 30] raises Faible to Modéré; precipitation over 30 sets Élevé. -/
def regle_supplementaire (precipitation : Option ℚ) (st : ClassifierState) : ClassifierState :=
  match precipitation with
  | some p =>
      if 15 < p ∧ p ≤ 30 then
        { st with
            risk_level := if st.risk_level = RiskLevel.Faible then RiskLevel.Modere else st.risk_level,
            risk_reasons := st.risk_reasons ++ [Reason.moderatePrecip p] }
      else if 30 < p then
        { st with risk_level := RiskLevel.Eleve,
                  risk_reasons := st.risk_reasons ++ [Reason.veryHighPrecip p] }
      else st
  | none => st

/-- The full cascade of app.py lines 735-770: the four rule blocks in source
order, then the default reason when no rule appended one (lines 769-770).
Spec rule numbering: rule 1 = regle1, rule 2 = regle4 (discharge over 10),
rule 3 = regle5 (discharge over 50), rules 4 and 5 = the two branches of
regle_supplementaire. -/
def predict_flood_classification (precipitation discharge : Option ℚ) : ClassifierState :=
  let st :=
    regle_supplementaire precipitation
      (regle5 discharge
        (regle4 discharge
          (regle1 precipitation (water_level_of discharge) initialClassifierState)))
  { st with risk_reasons := if st.risk_reasons = [] then [Reason.stableConditions] else st.risk_reasons }

/-- The risk level after each successive rule block of one evaluation run
(initial value, then after each of the four blocks of the cascade). -/
def levelTrace (precipitation discharge : Option ℚ) : List RiskLevel :=
  let s0 := initialClassifierState
  let s1 := regle1 precipitation (water_level_of discharge) s0
  let s2 := regle4 discharge s1
  let s3 := regle5 discharge s2
  let s4 := regle_supplementaire precipitation s3
  [s0.risk_level, s1.risk_level, s2.risk_level, s3.risk_level, s4.risk_level]

/-- Ordering used by the monotonicity claims: Faible < Modéré < Élevé. -/
def RiskLevel.rank : RiskLevel → Nat
  | RiskLevel.Faible => 0
  | RiskLevel.Modere => 1
  | RiskLevel.Eleve => 2

/-- Reasons that only reference discharge, or the default reason. -/
def Reason.isHydroOrDefault : Reason → Bool
  | Reason.highDischarge _ => true
  | Reason.veryHighDischarge _ => true
  | Reason.stableConditions => true
  | _ => false

/-- Reasons that only reference precipitation, or the default reason. -/
def Reason.isPrecipOrDefault : Reason → Bool
  | Reason.moderatePrecip _ => true
  | Reason.veryHighPrecip _ => true
  | Reason.stableConditions => true
  | _ => false

/-! ## String containment (Python substring operator)

The explainer tests membership of substrings in rule text with the Python
operator `needle in hay`.  We implement it directly on character lists. -/

/-- Whether the first list is an initial segment of the second. -/
def charsStartWith : List Char → List Char → Bool
  | [], _ => true
  | _ :: _, [] => false
  | a :: as2, b :: bs => a == b && charsStartWith as2 bs

/-- Whether the second list occurs contiguously inside the first. -/
def charsContain (hay needle : List Char) : Bool :=
  match hay with
  | [] => needle.isEmpty
  | _ :: t => charsStartWith needle hay || charsContain t needle

/-- Python substring test: strContains hay needle models Python needle in hay. -/
def strContains (hay needle : String) : Bool :=
  charsContain hay.toList needle.toList

/-! ## SWRL rule catalog and inference explanation

ontology_explorer.py, load_swrl_rules (lines 76-123) builds one dict per
rule block with exactly the keys "id", "description", "rule" and
"explanation" (lines 110-115).  RuleDict mirrors that record; the two
lookup helpers mirror Python dict.get on those dicts: any other key
(in particular "rule_text" and "rule_id", the keys that
inference_explainer.py reads) is absent and yields the default. -/

structure RuleDict where
  id : Nat
  description : String
  rule : String
  explanation : String
deriving DecidableEq, Repr

/-- Python rule.get(key) for the string-valued keys of the rule dict;
returns none for any key the loader did not set. -/
def RuleDict.getStrOpt (r : RuleDict) (key : String) : Option String :=
  if key = "description" then some r.description
  else if key = "rule" then some r.rule
  else if key = "explanation" then some r.explanation
  else none

/-- Python rule.get(key, dflt) for string values. -/
def RuleDict.getStr (r : RuleDict) (key dflt : String) : String :=
  (r.getStrOpt key).getD dflt

/-- Python rule.get(key) for the integer-valued key of the rule dict ("id"
is the only one the loader sets). -/
def RuleDict.getNatOpt (r : RuleDict) (key : String) : Option Nat :=
  if key = "id" then some r.id else none

/-- One entry appended to explanation["triggered_rules"]
(inference_explainer.py lines 79-83 and 95-99): the values of
rule.get("rule_id") (no default, hence optional), the rule_text local, and
rule.get("description"). -/
structure TriggeredEntry where
  rule_id : Option Nat
  rule_text : String
  description : Option String
deriving DecidableEq, Repr

/-- inference_explainer.py lines 60-67: the accepted textual variants of the
inferred property, property_mapping.get(inferred_property, [inferred_property]). -/
def property_variants_of (inferred_property : String) : List String :=
  if inferred_property = "HighRisk" then ["HighRisk", "High_Risk", "High Risk"]
  else if inferred_property = "MediumRisk" then ["MediumRisk", "Medium_Risk", "Medium Risk"]
  else if inferred_property = "LowRisk" then ["LowRisk", "Low_Risk", "Low Risk"]
  else [inferred_property]

/-- inference_explainer.py lines 73-83: the strict pass.  For each rule,
rule_text = rule.get("rule_text", ""), kept when it contains "hasRiskLevel"
and some variant of the target property. -/
def strictTriggeredRules (rules : List RuleDict) (property_variants : List String) :
    List TriggeredEntry :=
  rules.filterMap (fun r =>
    let rule_text := r.getStr ("rule_text") ("")
    if strContains rule_text ("hasRiskLevel")
        && property_variants.any (fun v => strContains rule_text v) then
      some { rule_id := r.getNatOpt ("rule_id"), rule_text := rule_text,
             description := r.getStrOpt ("description") }
    else none)

/-- inference_explainer.py lines 88-99: the permissive fallback pass, kept
when rule_text contains both "hasRiskLevel" and the literal "HighRisk". -/
def looseTriggeredRules (rules : List RuleDict) : List TriggeredEntry :=
  rules.filterMap (fun r =>
    let rule_text := r.getStr ("rule_text") ("")
    if strContains rule_text ("hasRiskLevel") && strContains rule_text ("HighRisk") then
      some { rule_id := r.getNatOpt ("rule_id"), rule_text := rule_text,
             description := r.getStrOpt ("description") }
    else none)

/-- The triggered_rules list finally held by the explanation: the strict
pass result, or, when that is empty, the fallback pass result
(inference_explainer.py lines 73-99). -/
def triggeredRulesOf (rules : List RuleDict) (inferred_property : String) :
    List TriggeredEntry :=
  let strict := strictTriggeredRules rules (property_variants_of inferred_property)
  if strict.isEmpty then looseTriggeredRules rules else strict

/-- A concrete rule record shaped like the ones load_swrl_rules produces:
its "rule" text mentions both the risk-setting predicate and the HighRisk
label, so the claimed variant search ought to select it. -/
def ruleHighExample : RuleDict :=
  { id := 1,
    description := "Risque élevé en cas de fortes précipitations",
    rule := "Zone(?z) ^ hasHighPrecipitation(?z) -> hasRiskLevel(?z, HighRisk)",
    explanation := "Cette règle identifie un risque élevé." }

/-! ## Fact store and closure engine

The deductive closure itself is performed by the external owlrl library
(ontology_explorer.py line 724, app.py line 729), whose code is not part of
this repository.  Modelled from the spec: the data model of section 3
(facts as tagged triples) and the ClosureEngine of section 4.2 (kind
transitivity and domain/range propagation applied to a fixpoint over a
finite schema, with the iteration count bounded by the size of a finite
universe of derivable facts). -/

namespace FactStoreModel

/-- Modelled from the spec (section 3): a Value is a tagged union of an
entity reference and literals (numbers, strings, booleans; timestamps are
carried as their string form). -/
inductive Value where
  | entityRef : String → Value
  | litNum : ℚ → Value
  | litStr : String → Value
  | litBool : Bool → Value
deriving DecidableEq

/-- Modelled from the spec (section 3): an immutable (subject, predicate,
object) fact. -/
structure Fact where
  subj : String
  pred : String
  obj : Value
deriving DecidableEq

/-- The kind-assertion predicate (rdf:type in the RDF rendering). -/
def typePredicate : String := "rdf:type"

/-- Modelled from the spec (sections 3 and 4.2): the static schema
relationships the ClosureEngine consumes: subClassOf edges, and the
declared domain kind and range kind of predicates. -/
structure SchemaCatalog where
  subClassOf : List (String × String)
  domainDecl : List (String × String)
  rangeDecl : List (String × String)
deriving DecidableEq

/-- The facts one fact entails in one closure step (spec section 4.2):
kind transitivity through subClassOf, and domain/range propagation. -/
def deriveFromFact (sch : SchemaCatalog) (f : Fact) : List Fact :=
  (match f.obj with
   | Value.entityRef k =>
       (if f.pred = typePredicate then
          sch.subClassOf.filterMap (fun q =>
            if q.1 = k then some (Fact.mk f.subj typePredicate (Value.entityRef q.2)) else none)
        else []) ++
       sch.rangeDecl.filterMap (fun q =>
         if q.1 = f.pred then some (Fact.mk k typePredicate (Value.entityRef q.2)) else none)
   | _ => []) ++
  sch.domainDecl.filterMap (fun q =>
    if q.1 = f.pred then some (Fact.mk f.subj typePredicate (Value.entityRef q.2)) else none)

/-- One full closure pass: the store together with everything its facts
entail. -/
def stepClosure (sch : SchemaCatalog) (S : Finset Fact) : Finset Fact :=
  S ∪ S.biUnion (fun f => (deriveFromFact sch f).toFinset)

/-- Fuelled fixpoint iteration: stop as soon as a pass adds nothing
(the empty-pass detection of spec section 4.2). -/
def closeFuel (sch : SchemaCatalog) : Nat → Finset Fact → Finset Fact
  | 0, S => S
  | Nat.succ n, S =>
      let S2 := stepClosure sch S
      if S2 = S then S else closeFuel sch n S2

/-- The entity names a fact mentions (its subject, and its object when that
is an entity reference). -/
def factNames (f : Fact) : List String :=
  f.subj :: (match f.obj with
             | Value.entityRef e => [e]
             | _ => [])

/-- All entity names mentioned in a store. -/
def nameSet (S : Finset Fact) : Finset String :=
  S.biUnion (fun f => (factNames f).toFinset)

/-- The kinds a closure step can assert: the targets of subClassOf edges and
of domain/range declarations. -/
def kindTargets (sch : SchemaCatalog) : List String :=
  sch.subClassOf.map Prod.snd ++ sch.domainDecl.map Prod.snd ++ sch.rangeDecl.map Prod.snd

/-- Every kind assertion the closure could ever add, over the names of the
store and the schema kinds. -/
def typeFactUniverse (sch : SchemaCatalog) (S : Finset Fact) : Finset Fact :=
  (nameSet S ∪ (kindTargets sch).toFinset).biUnion (fun x =>
    ((kindTargets sch).map (fun K => Fact.mk x typePredicate (Value.entityRef K))).toFinset)

/-- A finite superset of every store reachable from S by closure passes. -/
def closureUniverse (sch : SchemaCatalog) (S : Finset Fact) : Finset Fact :=
  S ∪ typeFactUniverse sch S

/-- Modelled from the spec (section 4.2): materialize entailed facts to a
fixpoint; the iteration ceiling is the size of the finite universe of
derivable facts. -/
def closure (sch : SchemaCatalog) (S : Finset Fact) : Finset Fact :=
  closeFuel sch (closureUniverse sch S).card S

end FactStoreModel

/-- The namespace of the flood ontology
(FLOOD_NS in ontology_explorer.py line 21 and inference_explainer.py line 8). -/
def FLOOD_NS_STR : String :=
  "http://www.semanticweb.org/ontologies/2025/ouagadougou-flood-prediction#"

/-- Python s.startswith(pre). -/
def pyStartsWith (s pre : String) : Bool :=
  charsStartWith pre.toList s.toList

/-- Python str(x).split('#')[-1]: the maximal suffix containing no hash
(the whole string when no hash occurs). -/
def localNameStr (s : String) : String :=
  String.mk ((s.toList.reverse.takeWhile (fun a => a != '#')).reverse)

namespace FactStoreModel

/-- Rendering of a fact object as the explainer displays it
(inference_explainer.py lines 104-105 and 182-186): entity references are
shortened to their local name, literals to their lexical form.  The lexical
form of a number is approximated by its rational rendering; no property
proved here inspects it. -/
def displayValue : Value → String
  | Value.entityRef e => localNameStr e
  | Value.litNum q => toString q
  | Value.litStr s => s
  | Value.litBool b => toString b

/-- The object values of the facts with the given subject and predicate:
the value pool sampled by _get_fact_value (inference_explainer.py lines
170-187).  rdflib iterates triples in unspecified order, so the single
sampled value is modelled by the set of candidate values. -/
def factValues (g : Finset Fact) (subject predicate : String) : Finset Value :=
  (g.filter (fun f => f.subj = subject ∧ f.pred = predicate)).image Fact.obj

/-- Whether a value is numeric and strictly above the bound (non-numeric
values never parse and are skipped, inference_explainer.py lines 129-130). -/
def Value.numAbove (bound : ℚ) : Value → Bool
  | Value.litNum q => decide (bound < q)
  | _ => false

/-- Whether a value is numeric and strictly below the bound. -/
def Value.numBelow (bound : ℚ) : Value → Bool
  | Value.litNum q => decide (q < bound)
  | _ => false

/-- Whether some numeric value in the pool is strictly above the bound. -/
def someValueAbove (vs : Finset Value) (bound : ℚ) : Bool :=
  decide (0 < (vs.filter (fun v => v.numAbove bound = true)).card)

/-- Whether some numeric value in the pool is strictly below the bound. -/
def someValueBelow (vs : Finset Value) (bound : ℚ) : Bool :=
  decide (0 < (vs.filter (fun v => v.numBelow bound = true)).card)

/-- One entry of explanation["path_of_inference"]
(inference_explainer.py lines 123-166); the displayed value strings of the
threshold-crossing values stand for the sampled value. -/
structure PathEntry where
  factor : String
  values : Finset String
  threshold : String
  contribution : String
deriving DecidableEq

/-- The rendered crossing values for one factor. -/
def crossingAbove (vs : Finset Value) (bound : ℚ) : Finset String :=
  (vs.filter (fun v => v.numAbove bound = true)).image displayValue

/-- The rendered crossing values for one factor, lower test. -/
def crossingBelow (vs : Finset Value) (bound : ℚ) : Finset String :=
  (vs.filter (fun v => v.numBelow bound = true)).image displayValue

/-- inference_explainer.py lines 114-166: the four fixed factors checked for
the HighRisk target, in source order, each with its fixed threshold and
qualitative contribution. -/
def pathOfInference (g : Finset Fact) (zone_uri : String) : List PathEntry :=
  let rainfall := factValues g zone_uri (FLOOD_NS_STR ++ "hasRainfall")
  let drainage := factValues g zone_uri (FLOOD_NS_STR ++ "hasDrainageCapacity")
  let elevation := factValues g zone_uri (FLOOD_NS_STR ++ "hasElevation")
  let proximity := factValues g zone_uri (FLOOD_NS_STR ++ "hasProximityToWater")
  (if someValueAbove rainfall 100 then
     [{ factor := "Précipitations élevées", values := crossingAbove rainfall 100,
        threshold := "100", contribution := "Forte" }]
   else []) ++
  (if someValueBelow drainage 30 then
     [{ factor := "Faible capacité de drainage", values := crossingBelow drainage 30,
        threshold := "30", contribution := "Forte" }]
   else []) ++
  (if someValueBelow elevation 10 then
     [{ factor := "Faible élévation", values := crossingBelow elevation 10,
        threshold := "10", contribution := "Moyenne" }]
   else []) ++
  (if someValueBelow proximity 500 then
     [{ factor := "Proximité d\x27un cours d\x27eau", values := crossingBelow proximity 500,
        threshold := "500", contribution := "Forte" }]
   else [])

/-- The explanation value built by explain_inference
(inference_explainer.py lines 46-168).  Contributing facts are the set of
(predicate local name, object display) pairs; rdflib iteration order is
unspecified, so the list the source builds is modelled as a set. -/
structure Explanation where
  entity : String
  inferred_property : String
  triggered_rules : List TriggeredEntry
  contributing_facts : Finset (String × String)
  path_of_inference : List PathEntry
deriving DecidableEq

inductive ExplainResult where
  | errorResult : String → ExplainResult
  | success : Explanation → ExplainResult
deriving DecidableEq

/-- inference_explainer.py, explain_inference (lines 22-168), read against a
fact store.  Python truthiness: an empty graph and an empty rule list are
both falsy, giving the not-loaded error (line 36); a zone without the Zone
kind gives the unknown-zone error (lines 43-44). -/
def explain_inference_store (g : Finset Fact) (rules : List RuleDict)
    (zone_name inferred_property : String) : ExplainResult :=
  if g = ∅ ∨ rules = [] then
    ExplainResult.errorResult ("Ontologie ou règles non chargées")
  else
    let zone_uri := FLOOD_NS_STR ++ zone_name
    if Fact.mk zone_uri typePredicate (Value.entityRef (FLOOD_NS_STR ++ "Zone")) ∉ g then
      ExplainResult.errorResult
        ("La zone \x27" ++ zone_name ++ "\x27 n\x27existe pas dans l\x27ontologie")
    else
      ExplainResult.success
        { entity := zone_name,
          inferred_property := inferred_property,
          triggered_rules := triggeredRulesOf rules inferred_property,
          contributing_facts :=
            (g.filter (fun f =>
                f.subj = zone_uri ∧ f.pred ≠ FLOOD_NS_STR ++ "hasRiskLevel")).image
              (fun f => (localNameStr f.pred, displayValue f.obj)),
          path_of_inference :=
            if inferred_property = "HighRisk" then pathOfInference g zone_uri else [] }

/-- The state of the OntologyExplorer that get_inference_explanation touches:
the loaded fact store and the loaded rule catalog. -/
structure ExplorerState where
  graph : Finset Fact
  rules : List RuleDict
deriving DecidableEq

/-- ontology_explorer.py, get_inference_explanation (lines 386-408): it
reapplies the inference rules (_apply_rules, lines 710-732, which expands
the store to its deductive closure in place) and then delegates to
explain_inference.  The pair returned is (result, state after the call). -/
def get_inference_explanation (sch : SchemaCatalog) (st : ExplorerState)
    (zone_name inferred_property : String) : ExplainResult × ExplorerState :=
  let st2 : ExplorerState := { st with graph := closure sch st.graph }
  (explain_inference_store st2.graph st2.rules zone_name inferred_property, st2)

end FactStoreModel

/-! ## RDF graph model for the explorer

ontology_explorer.py works directly on an rdflib Graph: a set of
(subject, predicate, object) triples whose nodes are IRIs, literals or
blank nodes.  The graph is modelled as a list of distinct triples in
iteration order. -/

inductive Node3 where
  | uri : String → Node3
  | lit : String → Node3
  | blank : String → Node3
deriving DecidableEq, Repr

structure Triple where
  s : Node3
  p : Node3
  o : Node3
deriving DecidableEq, Repr

abbrev RdfGraph := List Triple

/-- Python isinstance(n, URIRef). -/
def Node3.isUri : Node3 → Bool
  | Node3.uri _ => true
  | _ => false

/-- Python isinstance(n, Literal). -/
def Node3.isLit : Node3 → Bool
  | Node3.lit _ => true
  | _ => false

/-- Python str(node): rdflib URIRef and Literal are string subclasses. -/
def Node3.str : Node3 → String
  | Node3.uri s => s
  | Node3.lit s => s
  | Node3.blank s => s

/-- The local name of a node, str(node).split('#')[-1]. -/
def Node3.localName (n : Node3) : String := localNameStr n.str

def rdfTypeUri : Node3 := Node3.uri ("http://www.w3.org/1999/02/22-rdf-syntax-ns#type")
def rdfsSubClassOfUri : Node3 := Node3.uri ("http://www.w3.org/2000/01/rdf-schema#subClassOf")
def rdfsLabelUri : Node3 := Node3.uri ("http://www.w3.org/2000/01/rdf-schema#label")
def rdfsCommentUri : Node3 := Node3.uri ("http://www.w3.org/2000/01/rdf-schema#comment")
def rdfsDomainUri : Node3 := Node3.uri ("http://www.w3.org/2000/01/rdf-schema#domain")
def rdfsRangeUri : Node3 := Node3.uri ("http://www.w3.org/2000/01/rdf-schema#range")
def owlClassUri : Node3 := Node3.uri ("http://www.w3.org/2002/07/owl#Class")
def owlObjectPropertyUri : Node3 := Node3.uri ("http://www.w3.org/2002/07/owl#ObjectProperty")
def owlDatatypePropertyUri : Node3 := Node3.uri ("http://www.w3.org/2002/07/owl#DatatypeProperty")
def owlNamedIndividualUri : Node3 := Node3.uri ("http://www.w3.org/2002/07/owl#NamedIndividual")
def owlOntologyUri : Node3 := Node3.uri ("http://www.w3.org/2002/07/owl#Ontology")

/-- rdflib graph.subjects(predicate, object). -/
def subjectsOf (g : RdfGraph) (p o : Node3) : List Node3 :=
  (g.filter (fun t => t.p == p && t.o == o)).map Triple.s

/-- rdflib graph.objects(subject, predicate). -/
def objectsOf (g : RdfGraph) (s p : Node3) : List Node3 :=
  (g.filter (fun t => t.s == s && t.p == p)).map Triple.o

/-- rdflib graph.subject_objects(predicate). -/
def subjectObjectsOf (g : RdfGraph) (p : Node3) : List (Node3 × Node3) :=
  (g.filter (fun t => t.p == p)).map (fun t => (t.s, t.o))

/-- ontology_explorer.py, _get_label (lines 698-702): the first rdfs:label
of the element, as a string, or None. -/
def getLabel (g : RdfGraph) (u : Node3) : Option String :=
  ((objectsOf g u rdfsLabelUri).map Node3.str).head?

/-- ontology_explorer.py, _get_comment (lines 704-708). -/
def getComment (g : RdfGraph) (u : Node3) : Option String :=
  ((objectsOf g u rdfsCommentUri).map Node3.str).head?

/-- Python x or dflt on an optional string: None and the empty string are
both falsy and fall through to the default. -/
def pyOr (o : Option String) (dflt : String) : String :=
  match o with
  | some s => if s = "" then dflt else s
  | none => dflt

/-! ## Visualization builder
ontology_explorer.py, get_ontology_visualization_data (lines 462-696). -/

/-- One node of the visualization graph (the dicts appended to nodes). -/
structure VNode where
  id : String
  name : String
  label : String
  description : String
  type : String
  value : ℚ
deriving DecidableEq, Repr

/-- One link of the visualization graph (the dicts appended to links). -/
structure VLink where
  source : String
  target : String
  type : String
  label : String
  value : ℚ
deriving DecidableEq, Repr

/-- The accumulating locals of the builder: nodes, links and the node_ids
dict (keys in insertion order). -/
structure VizAcc where
  nodes : List VNode
  links : List VLink
  node_ids : List String
deriving DecidableEq, Repr

/-- Lines 477-487: the importance score of a class,
1 + 0.5*subclasses + 0.3*instances + 0.2*(domain uses + range uses).
The float coefficients are modelled as exact rationals. -/
def class_importance (g : RdfGraph) (cls : Node3) : ℚ :=
  let subclass_count := (subjectsOf g rdfsSubClassOfUri cls).length
  let instances_count := (subjectsOf g rdfTypeUri cls).length
  let prop_count := (subjectsOf g rdfsDomainUri cls).length +
                    (subjectsOf g rdfsRangeUri cls).length
  1 + (subclass_count : ℚ) * (1 / 2) + (instances_count : ℚ) * (3 / 10) +
    (prop_count : ℚ) * (1 / 5)

/-- Lines 490-511: add one class node. -/
def addClassNode (g : RdfGraph) (acc : VizAcc) (cls : Node3) : VizAcc :=
  if cls.isUri && pyStartsWith cls.str FLOOD_NS_STR then
    let class_name := cls.localName
    let node_id := "class_" ++ class_name
    if node_id ∈ acc.node_ids then acc
    else
      { acc with
          nodes := acc.nodes ++
            [{ id := node_id, name := class_name,
               label := pyOr (getLabel g cls) class_name,
               description := pyOr (getComment g cls) ("Classe " ++ class_name),
               type := "class", value := class_importance g cls }],
          node_ids := acc.node_ids ++ [node_id] }
  else acc

def classNodesPhase (g : RdfGraph) (acc : VizAcc) : VizAcc :=
  (subjectsOf g rdfTypeUri owlClassUri).foldl (addClassNode g) acc

/-- Lines 514-532: add one object-property node. -/
def addPropertyNode (g : RdfGraph) (acc : VizAcc) (prop : Node3) : VizAcc :=
  if prop.isUri && pyStartsWith prop.str FLOOD_NS_STR then
    let prop_name := prop.localName
    let node_id := "prop_" ++ prop_name
    if node_id ∈ acc.node_ids then acc
    else
      { acc with
          nodes := acc.nodes ++
            [{ id := node_id, name := prop_name,
               label := pyOr (getLabel g prop) prop_name,
               description := pyOr (getComment g prop) ("Propriété d\x27objet " ++ prop_name),
               type := "property", value := 7 / 10 }],
          node_ids := acc.node_ids ++ [node_id] }
  else acc

def propertyNodesPhase (g : RdfGraph) (acc : VizAcc) : VizAcc :=
  (subjectsOf g rdfTypeUri owlObjectPropertyUri).foldl (addPropertyNode g) acc

/-- Lines 538-578: add one named individual (bounded by max_individuals = 30),
with its instanceOf links to already-present class nodes. -/
def addIndividual (g : RdfGraph) (st : VizAcc × Nat) (indiv : Node3) : VizAcc × Nat :=
  let acc := st.1
  let individuals_added := st.2
  if indiv.isUri && pyStartsWith indiv.str FLOOD_NS_STR && decide (individuals_added < 30) then
    let indiv_name := indiv.localName
    let node_id := "indiv_" ++ indiv_name
    if node_id ∈ acc.node_ids then st
    else
      let indiv_types := (objectsOf g indiv rdfTypeUri).filter
        (fun t => t.isUri && t != owlNamedIndividualUri && pyStartsWith t.str FLOOD_NS_STR)
      if indiv_types.isEmpty then st
      else
        let node_ids2 := acc.node_ids ++ [node_id]
        let newLinks := indiv_types.filterMap (fun type_uri =>
          let target_id := "class_" ++ type_uri.localName
          if target_id ∈ node_ids2 then
            some { source := node_id, target := target_id, type := "instanceOf",
                   label := "est une instance de", value := (1 : ℚ) }
          else none)
        ({ nodes := acc.nodes ++
             [{ id := node_id, name := indiv_name,
                label := pyOr (getLabel g indiv) indiv_name,
                description := pyOr (getComment g indiv) ("Individu " ++ indiv_name),
                type := "individual", value := 1 / 2 }],
           links := acc.links ++ newLinks,
           node_ids := node_ids2 }, individuals_added + 1)
  else st

def individualsPhase (g : RdfGraph) (acc : VizAcc) : VizAcc × Nat :=
  (subjectsOf g rdfTypeUri owlNamedIndividualUri).foldl (addIndividual g) (acc, 0)

/-- Lines 581-595: subClassOf links between class nodes already present. -/
def subClassLinksPhase (g : RdfGraph) (acc : VizAcc) : VizAcc :=
  (subjectObjectsOf g rdfsSubClassOfUri).foldl (fun a q =>
    if q.1.isUri && q.2.isUri && pyStartsWith q.1.str FLOOD_NS_STR
        && pyStartsWith q.2.str FLOOD_NS_STR then
      let source_id := "class_" ++ q.1.localName
      let target_id := "class_" ++ q.2.localName
      if source_id ∈ a.node_ids ∧ target_id ∈ a.node_ids then
        { a with links := a.links ++
            [{ source := source_id, target := target_id, type := "subClassOf",
               label := "est un sous-type de", value := (2 : ℚ) }] }
      else a
    else a) acc

/-- Lines 598-630: hasDomain and hasRange links between property and class
nodes already present. -/
def domainRangeLinksPhase (g : RdfGraph) (acc : VizAcc) : VizAcc :=
  (subjectsOf g rdfTypeUri owlObjectPropertyUri).foldl (fun a prop =>
    if prop.isUri && pyStartsWith prop.str FLOOD_NS_STR then
      let prop_id := "prop_" ++ prop.localName
      let domains := objectsOf g prop rdfsDomainUri
      let ranges := objectsOf g prop rdfsRangeUri
      let a2 := domains.foldl (fun b dom =>
        if dom.isUri && pyStartsWith dom.str FLOOD_NS_STR then
          let domain_id := "class_" ++ dom.localName
          if domain_id ∈ b.node_ids ∧ prop_id ∈ b.node_ids then
            { b with links := b.links ++
                [{ source := domain_id, target := prop_id, type := "hasDomain",
                   label := "a pour domaine", value := 3 / 2 }] }
          else b
        else b) a
      ranges.foldl (fun b rng =>
        if rng.isUri && pyStartsWith rng.str FLOOD_NS_STR then
          let range_id := "class_" ++ rng.localName
          if prop_id ∈ b.node_ids ∧ range_id ∈ b.node_ids then
            { b with links := b.links ++
                [{ source := prop_id, target := range_id, type := "hasRange",
                   label := "a pour co-domaine", value := 3 / 2 }] }
          else b
        else b) a2
    else a) acc

/-- Lines 633-656: property-assertion links between individual nodes already
present, for triples whose three nodes live in the flood namespace argument
and whose subject and object are NamedIndividuals and predicate an
ObjectProperty. -/
def assertionLinksPhase (g : RdfGraph) (acc : VizAcc) : VizAcc :=
  g.foldl (fun a t =>
    if t.s.isUri && t.p.isUri && t.o.isUri && pyStartsWith t.s.str FLOOD_NS_STR
        && pyStartsWith t.p.str FLOOD_NS_STR && pyStartsWith t.o.str FLOOD_NS_STR then
      if Triple.mk t.s rdfTypeUri owlNamedIndividualUri ∈ g ∧
          Triple.mk t.o rdfTypeUri owlNamedIndividualUri ∈ g ∧
          Triple.mk t.p rdfTypeUri owlObjectPropertyUri ∈ g then
        let source_id := "indiv_" ++ t.s.localName
        let target_id := "indiv_" ++ t.o.localName
        if source_id ∈ a.node_ids ∧ target_id ∈ a.node_ids then
          { a with links := a.links ++
              [{ source := source_id, target := target_id,
                 type := "objectPropertyAssertion", label := t.p.localName,
                 value := (1 : ℚ) }] }
        else a
      else a
    else a) acc

/-- The nodes, links and node_ids built by lines 473-656, in source order. -/
def buildVisualization (g : RdfGraph) : VizAcc :=
  assertionLinksPhase g
    (domainRangeLinksPhase g
      (subClassLinksPhase g
        (individualsPhase g
          (propertyNodesPhase g
            (classNodesPhase g { nodes := [], links := [], node_ids := [] }))).1))

/-- Lines 658-661: the first URIRef subject typed owl:Ontology, if any.  When
the loop binds nothing the later read of ontology_uri raises NameError. -/
def find_ontology_uri (g : RdfGraph) : Option Node3 :=
  ((subjectsOf g rdfTypeUri owlOntologyUri).filter Node3.isUri).head?

/-- The outcome of get_ontology_visualization_data: a returned dict (kept as
its key/value pairs, all values strings here) or a raised exception. -/
inductive VizResult where
  | ok : List (String × String) → VizResult
  | raised : String → VizResult
deriving DecidableEq, Repr

/-- The fixed details text returned at lines 671-687 (same text as
get_ontology_description, lines 435-451). -/
def detailsText : String :=
  "Cette ontologie a été développée pour le système de prédiction des inondations à Ouagadougou. Elle modélise les connaissances sur les facteurs contribuant aux inondations, incluant les données météorologiques, hydrologiques et géographiques. L\x27ontologie permet d\x27intégrer ces informations et d\x27appliquer un raisonnement sémantique pour évaluer les risques d\x27inondation dans différentes zones de la ville et ses environs.\n\nLes principaux concepts modélisés comprennent:\n- Les entités géographiques (quartiers, zones à risque, cours d\x27eau)\n- Les phénomènes météorologiques (précipitations, humidité)\n- Les données hydrologiques (débits, niveaux d\x27eau)\n- Les infrastructures hydrauliques (barrages, stations de mesure)\n- Les niveaux de risque et les alertes d\x27inondation\n\nCette ontologie est enrichie par un ensemble de règles SWRL qui permettent d\x27inférer automatiquement les niveaux de risque d\x27inondation en fonction des données disponibles."

/-- ontology_explorer.py, get_ontology_visualization_data (lines 462-696).
load_ok stands for the outcome of self.load_ontology() (file system state).
After building nodes and links (lines 473-656), the function falls into the
copied description block (lines 658-696) and returns the description dict;
the built nodes and links never reach the returned value.  When no
owl:Ontology subject exists the read of ontology_uri at line 663 raises
NameError; a URIRef is falsy exactly when its string is empty. -/
def get_ontology_visualization_data (load_ok : Bool) (g : RdfGraph) : VizResult :=
  if !load_ok then VizResult.ok [("error", "Impossible de charger l\x27ontologie")]
  else
    let _viz := buildVisualization g
    match find_ontology_uri g with
    | none => VizResult.raised ("NameError")
    | some u =>
        if u.str = "" then
          VizResult.ok [("error", "Informations sur l\x27ontologie non trouvées")]
        else
          VizResult.ok
            [("uri", u.str),
             ("title", pyOr (getLabel g u) ("Ontologie des inondations à Ouagadougou")),
             ("description", pyOr (getComment g u)
               ("Cette ontologie modélise les connaissances relatives aux inondations à Ouagadougou, Burkina Faso.")),
             ("details", detailsText),
             ("version", "1.0"),
             ("created", "2025-05-24")]

/-- The keys of a returned dict, when the call returned. -/
def vizKeys : VizResult → Option (List String)
  | VizResult.ok kvs => some (kvs.map Prod.fst)
  | VizResult.raised _ => none

/-! ## Ontology statistics
ontology_explorer.py, get_ontology_statistics (lines 348-384). -/

structure OntologyStatistics where
  classes : Nat
  object_properties : Nat
  data_properties : Nat
  individuals : Nat
  object_property_assertions : Nat
  data_property_assertions : Nat
  total_triples : Nat
  last_loaded : Option String
deriving DecidableEq, Repr

/-- The body of the assertion-counting loop (lines 368-373): a predicate
that is an IRI other than rdf:type classifies the triple by its object:
IRI objects count as object-property assertions, literal objects as
data-property assertions, blank-node objects as neither. -/
def assertStep (c : Nat × Nat) (t : Triple) : Nat × Nat :=
  if t.p ≠ rdfTypeUri ∧ t.p.isUri = true then
    match t.o with
    | Node3.uri _ => (c.1 + 1, c.2)
    | Node3.lit _ => (c.1, c.2 + 1)
    | Node3.blank _ => c
  else c

/-- Lines 365-373: the assertion-counting loop over all triples, carrying
the two counters (object-property assertions, data-property assertions). -/
def countAssertions (g : RdfGraph) : Nat × Nat :=
  g.foldl assertStep (0, 0)

/-- The classification predicate of the claim: a non-rdf:type IRI predicate
with an IRI object (object-property assertion). -/
def isObjAssertion (t : Triple) : Bool :=
  t.p.isUri && !(t.p == rdfTypeUri) && t.o.isUri

/-- The classification predicate of the claim: a non-rdf:type IRI predicate
with a literal object (data-property assertion). -/
def isDataAssertion (t : Triple) : Bool :=
  t.p.isUri && !(t.p == rdfTypeUri) && t.o.isLit

/-- ontology_explorer.py, get_ontology_statistics (lines 348-384), on a
loaded graph; last_loaded is the formatted load time held by the object. -/
def get_ontology_statistics (g : RdfGraph) (last_loaded : Option String) :
    OntologyStatistics :=
  { classes := (subjectsOf g rdfTypeUri owlClassUri).length,
    object_properties := (subjectsOf g rdfTypeUri owlObjectPropertyUri).length,
    data_properties := (subjectsOf g rdfTypeUri owlDatatypePropertyUri).length,
    individuals := (subjectsOf g rdfTypeUri owlNamedIndividualUri).length,
    object_property_assertions := (countAssertions g).1,
    data_property_assertions := (countAssertions g).2,
    total_triples := g.length,
    last_loaded := last_loaded }

/-! ## Concrete example graphs for the evaluations -/

/-- A URI in the flood namespace. -/
def floodUri (s : String) : Node3 := Node3.uri (FLOOD_NS_STR ++ s)

/-- The ontology header triple of the loaded file. -/
def ontologyHeaderTriple : Triple :=
  Triple.mk
    (Node3.uri ("http://www.semanticweb.org/ontologies/2025/ouagadougou-flood-prediction"))
    rdfTypeUri owlOntologyUri

/-- A small loaded graph: the ontology header, one class and one typed
individual. -/
def gVizExample : RdfGraph :=
  [ ontologyHeaderTriple,
    Triple.mk (floodUri ("Zone")) rdfTypeUri owlClassUri,
    Triple.mk (floodUri ("Tanghin")) rdfTypeUri owlNamedIndividualUri,
    Triple.mk (floodUri ("Tanghin")) rdfTypeUri (floodUri ("Zone")) ]

/-- The instanceOf link the builder emits for gVizExample. -/
def exampleInstanceLink : VLink :=
  { source := "indiv_Tanghin", target := "class_Zone", type := "instanceOf",
    label := "est une instance de", value := 1 }

/-- A loaded graph with 31 eligible individuals, one more than the
max_individuals cap of 30. -/
def gManyIndividuals : RdfGraph :=
  [ ontologyHeaderTriple,
    Triple.mk (floodUri ("Zone")) rdfTypeUri owlClassUri ] ++
  ((List.range 31).map (fun i =>
      [ Triple.mk (floodUri ("Quartier" ++ toString i)) rdfTypeUri owlNamedIndividualUri,
        Triple.mk (floodUri ("Quartier" ++ toString i)) rdfTypeUri (floodUri ("Zone")) ])).flatten

/-- Formalization of the eligibility condition of the individuals loop
(lines 538-551): a URIRef in the flood namespace, typed owl:NamedIndividual,
with at least one further flood-namespace type. -/
def eligibleIndividualsCount (g : RdfGraph) : Nat :=
  ((subjectsOf g rdfTypeUri owlNamedIndividualUri).filter (fun i =>
      i.isUri && pyStartsWith i.str FLOOD_NS_STR &&
      !((objectsOf g i rdfTypeUri).filter
          (fun t => t.isUri && t != owlNamedIndividualUri
                    && pyStartsWith t.str FLOOD_NS_STR)).isEmpty)).length

/-- More eligible individuals exist than the configured maximum of 30. -/
def projectionTruncationOccurred (g : RdfGraph) : Bool :=
  decide (30 < eligibleIndividualsCount g)

/-- Whether a projection result exposes a ProjectionTruncated indication
among its keys. -/
def carriesTruncationFlag (r : VizResult) : Bool :=
  ((vizKeys r).getD []).contains ("ProjectionTruncated")

/-- The number of individual nodes in a built visualization. -/
def individualNodeCount (acc : VizAcc) : Nat :=
  (acc.nodes.filter (fun n => n.type == "individual")).length

/-- Well-formedness of a builder state: the node_ids dict keys are exactly
the ids of the emitted nodes (in insertion order), and every link already
appended has both endpoints among the node ids. -/
def VizAcc.Wf (acc : VizAcc) : Prop :=
  acc.node_ids = acc.nodes.map VNode.id ∧
  ∀ l ∈ acc.links, l.source ∈ acc.node_ids ∧ l.target ∈ acc.node_ids

/-! # Theorems -/

/-- Invariant preservation through a left fold. -/
theorem foldl_preserve {α β : Type} (P : β → Prop) (f : β → α → β)
    (hstep : ∀ b a, P b → P (f b a)) :
    ∀ (xs : List α) (b : β), P b → P (xs.foldl f b) := by
  intro xs
  induction xs with
  | nil => intro b hb; exact hb
  | cons x xs2 ih => intro b hb; exact ih (f b x) (hstep b x hb)

/-! ## Classifier lemmas -/

theorem rank_le_two (l : RiskLevel) : l.rank ≤ 2 := by
  cases l <;> simp [RiskLevel.rank]

theorem eleve_of_two_le_rank (l : RiskLevel) (h : 2 ≤ l.rank) : l = RiskLevel.Eleve := by
  cases l <;> simp [RiskLevel.rank] at h ⊢

theorem regle1_mono (p wl : Option ℚ) (st : ClassifierState) :
    st.risk_level.rank ≤ (regle1 p wl st).risk_level.rank := by
  cases p <;> cases wl <;> simp only [regle1]
  · exact Nat.le_refl _
  · exact Nat.le_refl _
  · exact Nat.le_refl _
  · split
    · exact rank_le_two _
    · exact Nat.le_refl _

theorem regle4_mono (d : Option ℚ) (st : ClassifierState) :
    st.risk_level.rank ≤ (regle4 d st).risk_level.rank := by
  cases d <;> simp only [regle4]
  · exact Nat.le_refl _
  · split
    · cases h : st.risk_level <;> simp [h, RiskLevel.rank]
    · exact Nat.le_refl _

theorem regle5_mono (d : Option ℚ) (st : ClassifierState) :
    st.risk_level.rank ≤ (regle5 d st).risk_level.rank := by
  cases d <;> simp only [regle5]
  · exact Nat.le_refl _
  · split
    · cases h : st.risk_level <;> simp [h, RiskLevel.rank]
    · exact Nat.le_refl _

theorem regle_supplementaire_mono (p : Option ℚ) (st : ClassifierState) :
    st.risk_level.rank ≤ (regle_supplementaire p st).risk_level.rank := by
  cases p <;> simp only [regle_supplementaire]
  · exact Nat.le_refl _
  · split
    · cases h : st.risk_level <;> simp [h, RiskLevel.rank]
    · split
      · exact rank_le_two _
      · exact Nat.le_refl _

/-- The final default-reason fixup does not change the risk level, so the
classifier level is the last entry of the level trace. -/
theorem final_level_eq_trace (p d : Option ℚ) :
    (predict_flood_classification p d).risk_level =
      (regle_supplementaire p
        (regle5 d (regle4 d (regle1 p (water_level_of d) initialClassifierState)))).risk_level := rfl

/-! ## Claim C1 -/

/-- Claim C1: on the snapshot with precipitation 40 mm and discharge
55 m³/s (derived water level 55/20 = 2.75 m), the classifier produces risk
level Élevé (High) and alert status Alerte (Alert), and the reasons list
contains the rule-1 reason (high precipitation and high water level), the
rule-3 reason (discharge over 50, the alert rule) and the rule-5 reason
(precipitation over 30).  The station thresholds hq2/hq5/hq30 are only
asserted into the RDF graph (app.py lines 719-726) and are not read by the
rule cascade, so they do not appear as classifier inputs. -/
theorem claim_c1_end_to_end :
    water_level_of (some 55) = some (55 / 20) ∧
    (predict_flood_classification (some 40) (some 55)).risk_level = RiskLevel.Eleve ∧
    (predict_flood_classification (some 40) (some 55)).alert_status = AlertStatus.Alerte ∧
    Reason.highPrecipAndWater 40 (55 / 20) ∈
      (predict_flood_classification (some 40) (some 55)).risk_reasons ∧
    Reason.veryHighDischarge 55 ∈
      (predict_flood_classification (some 40) (some 55)).risk_reasons ∧
    Reason.veryHighPrecip 40 ∈
      (predict_flood_classification (some 40) (some 55)).risk_reasons := by
  have h : (predict_flood_classification (some 40) (some 55)).risk_reasons =
      [Reason.highPrecipAndWater 40 (55 / 20), Reason.highDischarge 55,
       Reason.veryHighDischarge 55, Reason.veryHighPrecip 40] := by
    norm_num [predict_flood_classification, regle1, regle4, regle5, regle_supplementaire,
      water_level_of, initialClassifierState]
    intro hfalse
    exact (List.cons_ne_nil _ _ hfalse).elim
  refine ⟨rfl, ?_, ?_, ?_, ?_, ?_⟩
  · norm_num [predict_flood_classification, regle1, regle4, regle5, regle_supplementaire,
      water_level_of, initialClassifierState]
  · norm_num [predict_flood_classification, regle1, regle4, regle5, regle_supplementaire,
      water_level_of, initialClassifierState]
  · rw [h]; norm_num
  · rw [h]; simp
  · rw [h]; simp

/-! ## Claim C2 -/

/-- Claim C2: for every input snapshot (every combination of present and
absent precipitation and discharge), the risk level is monotone
non-decreasing along the rule cascade under Faible < Modéré < Élevé
(the level trace is a non-decreasing chain), and once Élevé appears
anywhere in the trace the final classification level is Élevé.  The spec
rules 4 and 5 are the two mutually exclusive branches of the final cascade
block regle_supplementaire. -/
theorem claim_c2_risk_monotone (p d : Option ℚ) :
    List.Chain' (fun a b => RiskLevel.rank a ≤ RiskLevel.rank b) (levelTrace p d) ∧
    (RiskLevel.Eleve ∈ levelTrace p d →
      (predict_flood_classification p d).risk_level = RiskLevel.Eleve) := by
  constructor
  · simp only [levelTrace, List.chain'_cons, List.chain'_singleton, and_true]
    exact ⟨regle1_mono _ _ _, regle4_mono _ _, regle5_mono _ _, regle_supplementaire_mono _ _⟩
  · intro hmem
    rw [final_level_eq_trace]
    apply eleve_of_two_le_rank
    simp only [levelTrace, List.mem_cons, List.not_mem_nil, or_false] at hmem
    have h1 := regle1_mono p (water_level_of d) initialClassifierState
    have h2 := regle4_mono d (regle1 p (water_level_of d) initialClassifierState)
    have h3 := regle5_mono d (regle4 d (regle1 p (water_level_of d) initialClassifierState))
    have h4 := regle_supplementaire_mono p
      (regle5 d (regle4 d (regle1 p (water_level_of d) initialClassifierState)))
    rcases hmem with h | h | h | h | h
    · exact absurd h (by decide)
    · have e : (regle1 p (water_level_of d) initialClassifierState).risk_level.rank = 2 := by
        rw [← h]; rfl
      omega
    · have e : (regle4 d (regle1 p (water_level_of d) initialClassifierState)).risk_level.rank
          = 2 := by
        rw [← h]; rfl
      omega
    · have e : (regle5 d (regle4 d
          (regle1 p (water_level_of d) initialClassifierState))).risk_level.rank = 2 := by
        rw [← h]; rfl
      omega
    · have e : (regle_supplementaire p (regle5 d (regle4 d
          (regle1 p (water_level_of d) initialClassifierState)))).risk_level.rank = 2 := by
        rw [← h]; rfl
      omega

/-- Witness for claim C2 at the concrete snapshot (40 mm, 55 m³/s): Élevé is
reached in the trace and the final level is Élevé. -/
theorem claim_c2_risk_monotone_witness :
    (predict_flood_classification (some 40) (some 55)).risk_level = RiskLevel.Eleve :=
  (claim_c2_risk_monotone (some 40) (some 55)).2
    (by norm_num [levelTrace, regle1, regle4, regle5, regle_supplementaire,
          water_level_of, initialClassifierState])

/-! ## Claim C9 -/

/-- Claim C9: absent inputs are not an error: the classifier is total, the
rules referencing an absent value contribute no reason (with precipitation
absent only the discharge rules or the default reason can appear; with
discharge absent only the precipitation rules or the default reason can
appear), and with both inputs absent the result is exactly risk level
Faible, alert status Normal, and the single default stable-conditions
reason. -/
theorem claim_c9_missing_inputs :
    predict_flood_classification none none =
      { risk_level := RiskLevel.Faible, alert_status := AlertStatus.Normal,
        risk_reasons := [Reason.stableConditions] } ∧
    (∀ d : Option ℚ,
      ((predict_flood_classification none d).risk_reasons.all Reason.isHydroOrDefault) = true) ∧
    (∀ p : Option ℚ,
      ((predict_flood_classification p none).risk_reasons.all Reason.isPrecipOrDefault) = true) := by
  refine ⟨by decide, ?_, ?_⟩
  · intro d
    cases d with
    | none => decide
    | some d =>
        simp only [predict_flood_classification, regle1, regle4, regle5, regle_supplementaire,
          water_level_of, initialClassifierState]
        split_ifs <;>
          simp_all [Reason.isHydroOrDefault]
  · intro p
    cases p with
    | none => decide
    | some p =>
        simp only [predict_flood_classification, regle1, regle4, regle5, regle_supplementaire,
          water_level_of, initialClassifierState]
        split_ifs <;>
          simp_all [Reason.isPrecipOrDefault]

/-! ## Claim C3 -/

theorem strictTriggeredRules_nil (rules : List RuleDict) (vs : List String) :
    strictTriggeredRules rules vs = [] := by
  induction rules with
  | nil => rfl
  | cons r rs ih => exact ih

theorem looseTriggeredRules_nil (rules : List RuleDict) :
    looseTriggeredRules rules = [] := by
  induction rules with
  | nil => rfl
  | cons r rs ih => exact ih

/-- Claim C3 (code bug witness): the explainer reads rule.get("rule_text")
but the loader stores the text under the key "rule"
(ontology_explorer.py lines 110-115 versus inference_explainer.py lines 74
and 91), so the variant search and the fallback both scan the empty string:
for every catalog and every target property the triggered-rules list is
empty, even for a rule whose stored text does contain both the risk-setting
predicate and the HighRisk label, which the claim says must be collected. -/
theorem claim_c3_triggered_always_empty :
    (∀ (rules : List RuleDict) (inferred_property : String),
        triggeredRulesOf rules inferred_property = []) ∧
    triggeredRulesOf [ruleHighExample] ("HighRisk") = [] ∧
    strContains ruleHighExample.rule ("hasRiskLevel") = true ∧
    strContains ruleHighExample.rule ("HighRisk") = true := by
  refine ⟨?_, by decide, by decide, by decide⟩
  intro rules inferred_property
  simp only [triggeredRulesOf, strictTriggeredRules_nil, looseTriggeredRules_nil,
    List.isEmpty_nil, if_true]

/-! ## Closure engine lemmas -/

namespace FactStoreModel

theorem subset_stepClosure (sch : SchemaCatalog) (S : Finset Fact) :
    S ⊆ stepClosure sch S :=
  Finset.subset_union_left

theorem deriveFromFact_shape (sch : SchemaCatalog) (f d : Fact)
    (hd : d ∈ deriveFromFact sch f) :
    ∃ x K, d = Fact.mk x typePredicate (Value.entityRef K) ∧
      x ∈ factNames f ∧ K ∈ kindTargets sch := by
  rcases f with ⟨fs, fp, fo⟩
  rcases List.mem_append.mp hd with h | h
  · cases fo with
    | entityRef k =>
        rcases List.mem_append.mp h with h2 | h2
        · by_cases hp : fp = typePredicate
          · rw [if_pos hp] at h2
            rcases List.mem_filterMap.mp h2 with ⟨q, hq, hsome⟩
            by_cases hq1 : q.1 = k
            · rw [if_pos hq1] at hsome
              refine ⟨fs, q.2, (Option.some_injective _ hsome).symm, ?_, ?_⟩
              · simp [factNames]
              · simp only [kindTargets, List.mem_append]
                exact Or.inl (Or.inl (List.mem_map.mpr ⟨q, hq, rfl⟩))
            · rw [if_neg hq1] at hsome
              exact absurd hsome (Option.noConfusion)
          · rw [if_neg hp] at h2
            exact absurd h2 (List.not_mem_nil _)
        · rcases List.mem_filterMap.mp h2 with ⟨q, hq, hsome⟩
          by_cases hq1 : q.1 = fp
          · rw [if_pos hq1] at hsome
            refine ⟨k, q.2, (Option.some_injective _ hsome).symm, ?_, ?_⟩
            · simp [factNames]
            · simp only [kindTargets, List.mem_append]
              exact Or.inr (List.mem_map.mpr ⟨q, hq, rfl⟩)
          · rw [if_neg hq1] at hsome
            exact absurd hsome (Option.noConfusion)
    | litNum q0 => exact absurd h (List.not_mem_nil _)
    | litStr s0 => exact absurd h (List.not_mem_nil _)
    | litBool b0 => exact absurd h (List.not_mem_nil _)
  · rcases List.mem_filterMap.mp h with ⟨q, hq, hsome⟩
    by_cases hq1 : q.1 = fp
    · rw [if_pos hq1] at hsome
      refine ⟨fs, q.2, (Option.some_injective _ hsome).symm, ?_, ?_⟩
      · simp [factNames]
      · simp only [kindTargets, List.mem_append]
        exact Or.inl (Or.inr (List.mem_map.mpr ⟨q, hq, rfl⟩))
    · rw [if_neg hq1] at hsome
      exact absurd hsome (Option.noConfusion)

theorem mem_nameSet_of_mem_factNames (S : Finset Fact) (f : Fact) (x : String)
    (hf : f ∈ S) (hx : x ∈ factNames f) : x ∈ nameSet S :=
  Finset.mem_biUnion.mpr ⟨f, hf, List.mem_toFinset.mpr hx⟩

theorem nameSet_mono (S T : Finset Fact) (h : S ⊆ T) : nameSet S ⊆ nameSet T := by
  intro x hx
  rcases Finset.mem_biUnion.mp hx with ⟨f, hf, hxf⟩
  exact Finset.mem_biUnion.mpr ⟨f, h hf, hxf⟩

theorem nameSet_closureUniverse (sch : SchemaCatalog) (S0 : Finset Fact) :
    nameSet (closureUniverse sch S0) ⊆ nameSet S0 ∪ (kindTargets sch).toFinset := by
  intro x hx
  rcases Finset.mem_biUnion.mp hx with ⟨f, hf, hxf⟩
  rcases Finset.mem_union.mp hf with hf0 | hft
  · exact Finset.mem_union_left _ (Finset.mem_biUnion.mpr ⟨f, hf0, hxf⟩)
  · rcases Finset.mem_biUnion.mp hft with ⟨y, hy, hfy⟩
    rcases List.mem_map.mp (List.mem_toFinset.mp hfy) with ⟨K, hK, hfK⟩
    rw [← hfK] at hxf
    simp only [factNames, List.mem_toFinset, List.mem_cons, List.not_mem_nil, or_false] at hxf
    rcases hxf with rfl | rfl
    · exact hy
    · exact Finset.mem_union_right _ (List.mem_toFinset.mpr hK)

theorem stepClosure_stays (sch : SchemaCatalog) (S0 : Finset Fact) :
    ∀ T : Finset Fact, T ⊆ closureUniverse sch S0 →
      stepClosure sch T ⊆ closureUniverse sch S0 := by
  intro T hT
  apply Finset.union_subset hT
  intro d hd
  rcases Finset.mem_biUnion.mp hd with ⟨f, hf, hdf⟩
  rcases deriveFromFact_shape sch f d (List.mem_toFinset.mp hdf) with ⟨x, K, hdx, hx, hK⟩
  apply Finset.mem_union_right
  apply Finset.mem_biUnion.mpr
  refine ⟨x, ?_, ?_⟩
  · exact nameSet_closureUniverse sch S0
      (nameSet_mono T (closureUniverse sch S0) hT (mem_nameSet_of_mem_factNames T f x hf hx))
  · rw [hdx]
    exact List.mem_toFinset.mpr (List.mem_map.mpr ⟨K, hK, rfl⟩)

theorem closeFuel_reaches_fix (sch : SchemaCatalog) (U : Finset Fact)
    (hU : ∀ T : Finset Fact, T ⊆ U → stepClosure sch T ⊆ U) :
    ∀ (fuel : Nat) (S : Finset Fact), S ⊆ U → U.card - S.card ≤ fuel →
      stepClosure sch (closeFuel sch fuel S) = closeFuel sch fuel S := by
  intro fuel
  induction fuel with
  | zero =>
      intro S hS hc
      have hSU : S = U := Finset.eq_of_subset_of_card_le hS (by omega)
      show stepClosure sch S = S
      rw [hSU]
      exact Finset.Subset.antisymm (hU U (Finset.Subset.refl U)) (subset_stepClosure sch U)
  | succ n ih =>
      intro S hS hc
      by_cases hfix : stepClosure sch S = S
      · simp only [closeFuel, hfix, if_pos]
      · have hstep : closeFuel sch (n + 1) S = closeFuel sch n (stepClosure sch S) := by
          simp only [closeFuel, hfix, if_false]
        rw [hstep]
        have h1 : S ⊆ stepClosure sch S := subset_stepClosure sch S
        have h2 : stepClosure sch S ⊆ U := hU S hS
        have hss : S ⊂ stepClosure sch S :=
          Finset.ssubset_iff_subset_ne.mpr ⟨h1, fun he => hfix he.symm⟩
        have h3 : S.card < (stepClosure sch S).card := Finset.card_lt_card hss
        have h4 : (stepClosure sch S).card ≤ U.card := Finset.card_le_card h2
        exact ih (stepClosure sch S) h2 (by omega)

theorem closeFuel_of_fix (sch : SchemaCatalog) (T : Finset Fact)
    (hfix : stepClosure sch T = T) : ∀ fuel : Nat, closeFuel sch fuel T = T := by
  intro fuel
  cases fuel with
  | zero => rfl
  | succ n => simp only [closeFuel, hfix, if_pos]

theorem closure_isFix (sch : SchemaCatalog) (S : Finset Fact) :
    stepClosure sch (closure sch S) = closure sch S :=
  closeFuel_reaches_fix sch (closureUniverse sch S) (stepClosure_stays sch S)
    (closureUniverse sch S).card S Finset.subset_union_left (Nat.sub_le _ _)

theorem closure_closure (sch : SchemaCatalog) (S : Finset Fact) :
    closure sch (closure sch S) = closure sch S :=
  closeFuel_of_fix sch (closure sch S) (closure_isFix sch S)
    (closureUniverse sch (closure sch S)).card

end FactStoreModel

/-! ## Claim C8 -/

/-- Claim C8: the closure (entailment materialization) operation is
idempotent: applying it to an already-closed store adds no facts, i.e.
closure (closure S) = closure S as sets of facts, for every schema and
every store.  The closure engine itself is the external owlrl library call,
so it is modelled from the spec (section 4.2). -/
theorem claim_c8_closure_idempotent (sch : FactStoreModel.SchemaCatalog)
    (S : Finset FactStoreModel.Fact) :
    FactStoreModel.closure sch (FactStoreModel.closure sch S) =
      FactStoreModel.closure sch S :=
  FactStoreModel.closure_closure sch S

/-! ## Claim C4 -/

/-- Claim C4: producing an inference explanation never mutates the fact
store.  Every reachable store state is the closure of some ingested store
(load_ontology closes the graph right after parsing it, and _apply_rules is
the only other writer); on such a state, get_inference_explanation (which
re-runs _apply_rules, i.e. the closure, and then performs a pure read)
leaves the set of facts unchanged, for every entity and target property. -/
theorem claim_c4_explanation_preserves_store (sch : FactStoreModel.SchemaCatalog)
    (rules : List RuleDict) (S0 : Finset FactStoreModel.Fact)
    (zone_name inferred_property : String) :
    (FactStoreModel.get_inference_explanation sch
        { graph := FactStoreModel.closure sch S0, rules := rules }
        zone_name inferred_property).2.graph =
      FactStoreModel.closure sch S0 := by
  simp only [FactStoreModel.get_inference_explanation]
  exact FactStoreModel.closure_closure sch S0

/-! ## Visualization builder invariants -/

theorem addClassNode_wf (g : RdfGraph) (acc : VizAcc) (cls : Node3) (h : acc.Wf) :
    (addClassNode g acc cls).Wf := by
  simp only [addClassNode]
  split
  · split
    · exact h
    · refine ⟨?_, ?_⟩
      · simp only [List.map_append, List.map_cons, List.map_nil]
        rw [h.1]
      · intro l hl
        rcases h.2 l hl with ⟨h1, h2⟩
        exact ⟨List.mem_append_left _ h1, List.mem_append_left _ h2⟩
  · exact h

theorem addPropertyNode_wf (g : RdfGraph) (acc : VizAcc) (prop : Node3) (h : acc.Wf) :
    (addPropertyNode g acc prop).Wf := by
  simp only [addPropertyNode]
  split
  · split
    · exact h
    · refine ⟨?_, ?_⟩
      · simp only [List.map_append, List.map_cons, List.map_nil]
        rw [h.1]
      · intro l hl
        rcases h.2 l hl with ⟨h1, h2⟩
        exact ⟨List.mem_append_left _ h1, List.mem_append_left _ h2⟩
  · exact h

theorem addIndividual_wf (g : RdfGraph) (st : VizAcc × Nat) (indiv : Node3)
    (h : st.1.Wf) : (addIndividual g st indiv).1.Wf := by
  simp only [addIndividual]
  split
  · split
    · exact h
    · split
      · exact h
      · refine ⟨?_, ?_⟩
        · simp only [List.map_append, List.map_cons, List.map_nil]
          rw [h.1]
        · intro l hl
          rcases List.mem_append.mp hl with hold | hnew
          · rcases h.2 l hold with ⟨h1, h2⟩
            exact ⟨List.mem_append_left _ h1, List.mem_append_left _ h2⟩
          · rcases List.mem_filterMap.mp hnew with ⟨t, ht, hsome⟩
            by_cases hmem : ("class_" ++ t.localName) ∈
                st.1.node_ids ++ ["indiv_" ++ indiv.localName]
            · rw [if_pos hmem] at hsome
              rw [← Option.some_injective _ hsome]
              refine ⟨?_, hmem⟩
              exact List.mem_append_right _ (List.mem_singleton.mpr rfl)
            · rw [if_neg hmem] at hsome
              exact absurd hsome (Option.noConfusion)
  · exact h

theorem classNodesPhase_wf (g : RdfGraph) (acc : VizAcc) (h : acc.Wf) :
    (classNodesPhase g acc).Wf :=
  foldl_preserve VizAcc.Wf (addClassNode g) (fun b a hb => addClassNode_wf g b a hb)
    (subjectsOf g rdfTypeUri owlClassUri) acc h

theorem propertyNodesPhase_wf (g : RdfGraph) (acc : VizAcc) (h : acc.Wf) :
    (propertyNodesPhase g acc).Wf :=
  foldl_preserve VizAcc.Wf (addPropertyNode g) (fun b a hb => addPropertyNode_wf g b a hb)
    (subjectsOf g rdfTypeUri owlObjectPropertyUri) acc h

theorem individualsPhase_wf (g : RdfGraph) (acc : VizAcc) (h : acc.Wf) :
    (individualsPhase g acc).1.Wf :=
  foldl_preserve (fun st : VizAcc × Nat => st.1.Wf) (addIndividual g)
    (fun b a hb => addIndividual_wf g b a hb)
    (subjectsOf g rdfTypeUri owlNamedIndividualUri) (acc, 0) h

theorem subClassLinksPhase_wf (g : RdfGraph) (acc : VizAcc) (h : acc.Wf) :
    (subClassLinksPhase g acc).Wf := by
  unfold subClassLinksPhase
  refine foldl_preserve VizAcc.Wf _ ?_ _ acc h
  intro b q hb
  dsimp only
  split_ifs with hguard hmem
  · refine ⟨hb.1, ?_⟩
    intro l hl
    rcases List.mem_append.mp hl with hold | hnew
    · exact hb.2 l hold
    · rw [List.mem_singleton.mp hnew]
      exact ⟨hmem.1, hmem.2⟩
  · exact hb
  · exact hb

theorem domainRangeLinksPhase_wf (g : RdfGraph) (acc : VizAcc) (h : acc.Wf) :
    (domainRangeLinksPhase g acc).Wf := by
  unfold domainRangeLinksPhase
  refine foldl_preserve VizAcc.Wf _ ?_ _ acc h
  intro b prop hb
  dsimp only
  split
  · refine foldl_preserve VizAcc.Wf _ ?_ _ _ (foldl_preserve VizAcc.Wf _ ?_ _ _ hb)
    · intro b2 rng hb2
      dsimp only
      split_ifs with hguard hmem
      · refine ⟨hb2.1, ?_⟩
        intro l hl
        rcases List.mem_append.mp hl with hold | hnew
        · exact hb2.2 l hold
        · rw [List.mem_singleton.mp hnew]
          exact ⟨hmem.1, hmem.2⟩
      · exact hb2
      · exact hb2
    · intro b2 dom hb2
      dsimp only
      split_ifs with hguard hmem
      · refine ⟨hb2.1, ?_⟩
        intro l hl
        rcases List.mem_append.mp hl with hold | hnew
        · exact hb2.2 l hold
        · rw [List.mem_singleton.mp hnew]
          exact ⟨hmem.1, hmem.2⟩
      · exact hb2
      · exact hb2
  · exact hb

theorem assertionLinksPhase_wf (g : RdfGraph) (acc : VizAcc) (h : acc.Wf) :
    (assertionLinksPhase g acc).Wf := by
  unfold assertionLinksPhase
  refine foldl_preserve VizAcc.Wf _ ?_ _ acc h
  intro b t hb
  dsimp only
  split_ifs with hguard hind hmem
  · refine ⟨hb.1, ?_⟩
    intro l hl
    rcases List.mem_append.mp hl with hold | hnew
    · exact hb.2 l hold
    · rw [List.mem_singleton.mp hnew]
      exact ⟨hmem.1, hmem.2⟩
  · exact hb
  · exact hb
  · exact hb

theorem initVizAcc_wf : (VizAcc.mk [] [] []).Wf := by
  constructor
  · rfl
  · intro l hl
    exact absurd hl (List.not_mem_nil l)

theorem buildVisualization_wf (g : RdfGraph) : (buildVisualization g).Wf := by
  unfold buildVisualization
  exact assertionLinksPhase_wf g _
    (domainRangeLinksPhase_wf g _
      (subClassLinksPhase_wf g _
        (individualsPhase_wf g _
          (propertyNodesPhase_wf g _
            (classNodesPhase_wf g _ initVizAcc_wf)))))

/-! ## Claim C6 -/

/-- Claim C6: in every visualization graph the builder produces, every
source id and target id of every link are ids of nodes in the emitted node set --
no dangling endpoints, across all link kinds (instanceOf, subClassOf,
hasDomain/hasRange, and individual-to-individual property assertions). -/
theorem claim_c6_no_dangling_links (g : RdfGraph) (l : VLink)
    (h : l ∈ (buildVisualization g).links) :
    l.source ∈ (buildVisualization g).nodes.map VNode.id ∧
    l.target ∈ (buildVisualization g).nodes.map VNode.id := by
  rcases buildVisualization_wf g with ⟨hids, hlinks⟩
  rcases hlinks l h with ⟨h1, h2⟩
  rw [hids] at h1 h2
  exact ⟨h1, h2⟩

/-- Witness for claim C6: on the small example graph the builder emits the
instanceOf link, and both its endpoints are emitted node ids. -/
theorem claim_c6_no_dangling_links_witness :
    exampleInstanceLink ∈ (buildVisualization gVizExample).links ∧
    (exampleInstanceLink.source ∈ (buildVisualization gVizExample).nodes.map VNode.id ∧
     exampleInstanceLink.target ∈ (buildVisualization gVizExample).nodes.map VNode.id) :=
  ⟨by decide, claim_c6_no_dangling_links gVizExample exampleInstanceLink (by decide)⟩

/-! ## Claim C5 -/

/-- Claim C5 (code bug witness): on a successfully loaded graph the
projection operation is claimed to return a node/link model; the code
instead builds the nodes and links and then returns the ontology
description dict (lines 658-696), silently omitting them.  On the concrete
example graph: the returned keys are exactly the description keys, with no
nodes or links entry, even though the builder produced a non-empty node set
and a non-empty link set. -/
theorem claim_c5_result_omits_built_graph :
    vizKeys (get_ontology_visualization_data true gVizExample) =
      some ["uri", "title", "description", "details", "version", "created"] ∧
    ((vizKeys (get_ontology_visualization_data true gVizExample)).getD []).contains
      ("nodes") = false ∧
    ((vizKeys (get_ontology_visualization_data true gVizExample)).getD []).contains
      ("links") = false ∧
    (buildVisualization gVizExample).nodes ≠ [] ∧
    (buildVisualization gVizExample).links ≠ [] := by
  exact ⟨by decide, by decide, by decide, by decide, by decide⟩

/-! ## Claim C7 -/

theorem individualNodeCount_nodes_eq (a b : VizAcc) (h : a.nodes = b.nodes) :
    individualNodeCount a = individualNodeCount b := by
  unfold individualNodeCount
  rw [h]

theorem addClassNode_indivCount (g : RdfGraph) (acc : VizAcc) (cls : Node3) :
    individualNodeCount (addClassNode g acc cls) = individualNodeCount acc := by
  simp only [addClassNode]
  split
  · split
    · rfl
    · simp [individualNodeCount, List.filter_append]
  · rfl

theorem addPropertyNode_indivCount (g : RdfGraph) (acc : VizAcc) (prop : Node3) :
    individualNodeCount (addPropertyNode g acc prop) = individualNodeCount acc := by
  simp only [addPropertyNode]
  split
  · split
    · rfl
    · simp [individualNodeCount, List.filter_append]
  · rfl

theorem addIndividual_countBound (g : RdfGraph) (st : VizAcc × Nat) (indiv : Node3)
    (h : individualNodeCount st.1 = st.2 ∧ st.2 ≤ 30) :
    individualNodeCount (addIndividual g st indiv).1 = (addIndividual g st indiv).2 ∧
      (addIndividual g st indiv).2 ≤ 30 := by
  simp only [addIndividual]
  split
  · rename_i hguard
    split
    · exact h
    · split
      · exact h
      · have hlt : st.2 < 30 := by
          simp only [Bool.and_eq_true, decide_eq_true_eq] at hguard
          exact hguard.2
        constructor
        · simp [individualNodeCount, List.filter_append]
          exact h.1
        · omega
  · exact h

theorem individualsPhase_countBound (g : RdfGraph) (acc : VizAcc)
    (h0 : individualNodeCount acc = 0) :
    individualNodeCount (individualsPhase g acc).1 ≤ 30 := by
  have hinv := foldl_preserve
    (fun st : VizAcc × Nat => individualNodeCount st.1 = st.2 ∧ st.2 ≤ 30)
    (addIndividual g) (fun b a hb => addIndividual_countBound g b a hb)
    (subjectsOf g rdfTypeUri owlNamedIndividualUri) (acc, 0) ⟨h0, by omega⟩
  rw [individualsPhase, hinv.1]
  exact hinv.2

theorem classNodesPhase_indivCount (g : RdfGraph) (acc : VizAcc) :
    individualNodeCount (classNodesPhase g acc) = individualNodeCount acc := by
  unfold classNodesPhase
  refine foldl_preserve (fun b => individualNodeCount b = individualNodeCount acc)
    (addClassNode g) ?_ _ acc rfl
  intro b a hb
  rw [addClassNode_indivCount, hb]

theorem propertyNodesPhase_indivCount (g : RdfGraph) (acc : VizAcc) :
    individualNodeCount (propertyNodesPhase g acc) = individualNodeCount acc := by
  unfold propertyNodesPhase
  refine foldl_preserve (fun b => individualNodeCount b = individualNodeCount acc)
    (addPropertyNode g) ?_ _ acc rfl
  intro b a hb
  rw [addPropertyNode_indivCount, hb]

theorem subClassLinksPhase_nodes (g : RdfGraph) (acc : VizAcc) :
    (subClassLinksPhase g acc).nodes = acc.nodes := by
  unfold subClassLinksPhase
  refine foldl_preserve (fun b => b.nodes = acc.nodes) _ ?_ _ acc rfl
  intro b q hb
  dsimp only
  split_ifs <;> exact hb

theorem domainRangeLinksPhase_nodes (g : RdfGraph) (acc : VizAcc) :
    (domainRangeLinksPhase g acc).nodes = acc.nodes := by
  unfold domainRangeLinksPhase
  refine foldl_preserve (fun b => b.nodes = acc.nodes) _ ?_ _ acc rfl
  intro b prop hb
  dsimp only
  split
  · refine foldl_preserve (fun b2 : VizAcc => b2.nodes = acc.nodes) _ ?_ _ _
      (foldl_preserve (fun b2 : VizAcc => b2.nodes = acc.nodes) _ ?_ _ _ hb) <;>
    · intro b2 x hb2
      dsimp only
      split_ifs <;> exact hb2
  · exact hb

theorem assertionLinksPhase_nodes (g : RdfGraph) (acc : VizAcc) :
    (assertionLinksPhase g acc).nodes = acc.nodes := by
  unfold assertionLinksPhase
  refine foldl_preserve (fun b => b.nodes = acc.nodes) _ ?_ _ acc rfl
  intro b t hb
  dsimp only
  split_ifs <;> exact hb

/-- The build never emits more than 30 individual nodes. -/
theorem buildVisualization_individual_bound (g : RdfGraph) :
    individualNodeCount (buildVisualization g) ≤ 30 := by
  unfold buildVisualization
  rw [individualNodeCount_nodes_eq _ _ (assertionLinksPhase_nodes g _),
    individualNodeCount_nodes_eq _ _ (domainRangeLinksPhase_nodes g _),
    individualNodeCount_nodes_eq _ _ (subClassLinksPhase_nodes g _)]
  apply individualsPhase_countBound
  rw [propertyNodesPhase_indivCount, classNodesPhase_indivCount]
  rfl

/-- Claim C7, as amended: the cap on individual nodes is hard-coded at 30
and the truncation is silent: for every graph and load outcome the
projection result never carries a ProjectionTruncated indication among its
keys, and the builder emits at most 30 individual nodes, dropping the
excess without any signal to the caller. -/
theorem claim_c7_truncation_is_silent (load_ok : Bool) (g : RdfGraph) :
    carriesTruncationFlag (get_ontology_visualization_data load_ok g) = false ∧
    individualNodeCount (buildVisualization g) ≤ 30 := by
  refine ⟨?_, buildVisualization_individual_bound g⟩
  unfold get_ontology_visualization_data
  split
  · rfl
  · split
    · rfl
    · split
      · rfl
      · rfl

set_option maxRecDepth 100000 in
/-- Claim C7, counterexample to the original claim: on the graph with 31
eligible individuals the cap applies (only 30 individual nodes are built,
the excess is dropped), yet the projection result carries no
ProjectionTruncated indication; the truncation is not discoverable by the
caller. -/
theorem claim_c7_counterexample :
    projectionTruncationOccurred gManyIndividuals = true ∧
    eligibleIndividualsCount gManyIndividuals = 31 ∧
    individualNodeCount (buildVisualization gManyIndividuals) = 30 ∧
    carriesTruncationFlag (get_ontology_visualization_data true gManyIndividuals) = false := by
  refine ⟨by decide, by decide, by decide, by decide⟩

/-! ## Claim C10 -/

theorem assertStep_eq (c : Nat × Nat) (t : Triple) :
    assertStep c t = (c.1 + (if isObjAssertion t = true then 1 else 0),
                      c.2 + (if isDataAssertion t = true then 1 else 0)) := by
  rcases t with ⟨ts, tp, tob⟩
  by_cases h1 : tp = rdfTypeUri
  · subst h1
    cases tob <;> simp [assertStep, isObjAssertion, isDataAssertion]
  · by_cases h2 : tp.isUri = true
    · have hbeq : (tp == rdfTypeUri) = false := beq_eq_false_iff_ne.mpr h1
      rcases tp with tpu | tpl | tpb
      · cases tob <;>
          simp [assertStep, isObjAssertion, isDataAssertion, h1, hbeq,
            Node3.isUri, Node3.isLit]
      · simp [Node3.isUri] at h2
      · simp [Node3.isUri] at h2
    · have h2f : tp.isUri = false := by
        revert h2
        cases tp.isUri <;> simp
      cases tob <;>
        simp [assertStep, isObjAssertion, isDataAssertion, h1, h2f]

theorem countAssertions_go (g : RdfGraph) : ∀ c : Nat × Nat,
    g.foldl assertStep c =
      (c.1 + (g.filter isObjAssertion).length, c.2 + (g.filter isDataAssertion).length) := by
  induction g with
  | nil => intro c; simp
  | cons t g2 ih =>
      intro c
      rw [List.foldl_cons, ih, assertStep_eq]
      cases hO : isObjAssertion t <;> cases hD : isDataAssertion t <;>
        simp [List.filter_cons, hO, hD] <;> omega

/-- Claim C10: the statistics operation classifies every triple whose
predicate is an IRI other than rdf:type by the kind of its object: IRI
objects are counted as object-property assertions and literal objects as
data-property assertions (so schema triples through subClassOf, domain and
range, and annotation triples through label and comment, are all included
in those counts), and the reported total triple count is the size of the
graph. -/
theorem claim_c10_statistics_classification (g : RdfGraph) (last_loaded : Option String) :
    (get_ontology_statistics g last_loaded).object_property_assertions =
      (g.filter isObjAssertion).length ∧
    (get_ontology_statistics g last_loaded).data_property_assertions =
      (g.filter isDataAssertion).length ∧
    (get_ontology_statistics g last_loaded).total_triples = g.length ∧
    (∀ s k : String, isObjAssertion ⟨Node3.uri s, rdfsSubClassOfUri, Node3.uri k⟩ = true) ∧
    (∀ s k : String, isObjAssertion ⟨Node3.uri s, rdfsDomainUri, Node3.uri k⟩ = true) ∧
    (∀ s k : String, isObjAssertion ⟨Node3.uri s, rdfsRangeUri, Node3.uri k⟩ = true) ∧
    (∀ s v : String, isDataAssertion ⟨Node3.uri s, rdfsLabelUri, Node3.lit v⟩ = true) ∧
    (∀ s v : String, isDataAssertion ⟨Node3.uri s, rdfsCommentUri, Node3.lit v⟩ = true) := by
  refine ⟨?_, ?_, rfl, fun s k => rfl, fun s k => rfl, fun s k => rfl,
    fun s v => rfl, fun s v => rfl⟩
  · show (countAssertions g).1 = (g.filter isObjAssertion).length
    rw [countAssertions, countAssertions_go g (0, 0)]
    simp
  · show (countAssertions g).2 = (g.filter isDataAssertion).length
    rw [countAssertions, countAssertions_go g (0, 0)]
    simp
